import Mathlib

/-!
Verification of the web-search workflow orchestration in src/server/mastra.ts.

The embedding models JavaScript string-or-undefined values as `Option String`
(`none` is `undefined`), JavaScript exceptions as an explicit `Thrown` value,
and the external Anthropic agent call as an `Except String String` parameter
(`Except.error msg` is a raised error whose `message` field is `msg`,
`Except.ok text` is a response whose `text` field is `text`).  Environment
variables consumed by the handlers are gathered in `Env`.
-/

/-- JavaScript truthiness test for a string-or-undefined value:
`undefined` and the empty string are the falsy cases. -/
def isFalsy : Option String → Bool
  | none => true
  | some s => decide (s = "")

/-- JavaScript `a || b` specialised to string-or-undefined values:
yields `b` exactly when `a` is falsy. -/
def jsOr (a b : Option String) : Option String :=
  if isFalsy a then b else a

/-- The trigger data object of a run; its `query` field may be absent. -/
structure TriggerData where
  query : Option String := none
deriving Repr, DecidableEq

/-- A step output object.  The search step produces `\x7b query \x7d`, the
process-results step produces `\x7b answer \x7d`; absent fields are `none`. -/
structure StepOutput where
  query : Option String := none
  answer : Option String := none
deriving Repr, DecidableEq

/-- A per-step input object (`steps[stepId].input` as passed by the caller of
`start`, the per-step override layer of the context). -/
structure StepInput where
  query : Option String := none
deriving Repr, DecidableEq

/-- The entry stored under one step id in `context.context.steps`: the
caller-supplied `input` override and the recorded `output`, either absent. -/
structure StepEntry where
  input : Option StepInput := none
  output : Option StepOutput := none
deriving Repr, DecidableEq

/-- The context object a step `execute` receives (the inner `context.context`):
the trigger data and the per-step entries, addressed by step id. -/
structure ExecContext where
  triggerData : Option TriggerData := none
  steps : List (String × StepEntry) := []
deriving Repr, DecidableEq

/-- `context.context?.triggerData?.query`. -/
def ExecContext.triggerQuery (context : ExecContext) : Option String :=
  context.triggerData.bind TriggerData.query

/-- `context.context?.steps?.[stepId]?.output?.query`. -/
def ExecContext.stepOutputQuery (context : ExecContext) (stepId : String) : Option String :=
  ((context.steps.lookup stepId).bind StepEntry.output).bind StepOutput.query

/-- `context.context?.steps?.[stepId]?.input?.query` — the per-step override. -/
def ExecContext.stepOverrideQuery (context : ExecContext) (stepId : String) : Option String :=
  ((context.steps.lookup stepId).bind StepEntry.input).bind StepInput.query

/-- The query the search step resolves (mastra.ts line 98): it reads the
trigger data directly and consults no other context layer. -/
def searchStepResolvedQuery (context : ExecContext) : Option String :=
  context.triggerQuery

/-- The search step execute function (mastra.ts lines 93-111): use the
resolved trigger query, or a fixed placeholder when it is falsy. -/
def searchStepExecute (context : ExecContext) : StepOutput :=
  let searchQuery := searchStepResolvedQuery context
  if isFalsy searchQuery then
    { query := some "No query provided, using default search" }
  else
    { query := searchQuery }

/-- The query the process-results step resolves (mastra.ts lines 126-128):
the recorded output of `search-step`, falling back with JavaScript `||`
to the trigger query.  The per-step override input is not consulted. -/
def processResolvedQuery (context : ExecContext) : Option String :=
  let previousStepQuery := context.stepOutputQuery "search-step"
  let triggerQuery := context.triggerQuery
  jsOr previousStepQuery triggerQuery

/-- Environment variables read by the process-results step. -/
structure Env where
  anthropicApiKey : Option String := none
deriving Repr, DecidableEq

/-- The credential guard of mastra.ts line 143:
`!process.env.ANTHROPIC_API_KEY || process.env.ANTHROPIC_API_KEY === 'dummy-key'`. -/
def agentUnconfigured (env : Env) : Bool :=
  isFalsy env.anthropicApiKey || decide (env.anthropicApiKey = some "dummy-key")

/-- The degraded answer returned when no query is resolvable (line 135). -/
def missingQueryAnswer : String := "No query provided, using default response"

/-- The canned answer returned when the credential is absent or the
placeholder (lines 146-148). -/
def cannedTokyoAnswer : String :=
  "これは日本の首都に関する情報です。東京は日本の首都であり、世界最大の都市圏の一つです。人口は約1,400万人で、関東平野に位置しています。政治、経済、文化の中心地であり、多くの企業や大学が集まっています。1868年に江戸から東京に改名され、明治維新以降、日本の首都となりました。"

/-- The fixed leading text of the catch-branch answer (line 168); the caught
error message is appended to it. -/
def errorAnswerIntro : String :=
  "検索クエリの処理中にエラーが発生しました。別のクエリをお試しください。エラー詳細: "

/-- One hexadecimal digit, lower case, as produced by JSON.stringify escapes. -/
def hexDigit (n : Nat) : Char :=
  if n < 10 then Char.ofNat (48 + n) else Char.ofNat (87 + n)

/-- The JSON escape of one character inside a string literal. -/
def jsonEscapeChar (c : Char) : String :=
  if c = '"' then "\\\""
  else if c = '\\' then "\\\\"
  else if c = '\n' then "\\n"
  else if c = '\r' then "\\r"
  else if c = '\t' then "\\t"
  else if c = '\x08' then "\\b"
  else if c = '\x0c' then "\\f"
  else if c.toNat < 32 then "\\u00" ++ String.mk [hexDigit (c.toNat / 16), hexDigit (c.toNat % 16)]
  else String.singleton c

/-- `JSON.stringify` applied to a string value (line 163 stringifies
`result.text`): the escaped text between two double quotes. -/
def jsonStringifyString (s : String) : String :=
  "\"" ++ String.join (s.data.map jsonEscapeChar) ++ "\""

/-- The process-results step execute function (mastra.ts lines 121-172).
Besides the step output it returns the number of `webSearchAgent.generate`
calls it performed, so that the agent-invocation policy can be stated. -/
def processResultsStepExecute (env : Env) (agentGenerate : Except String String)
    (context : ExecContext) : StepOutput × Nat :=
  let searchQuery := processResolvedQuery context
  if isFalsy searchQuery then
    ({ answer := some missingQueryAnswer }, 0)
  else if agentUnconfigured env then
    ({ answer := some cannedTokyoAnswer }, 0)
  else
    match agentGenerate with
    | Except.ok text => ({ answer := some (jsonStringifyString text) }, 1)
    | Except.error msg => ({ answer := some (errorAnswerIntro ++ msg) }, 1)

/-- Record a finished step output in the context entry for `stepId`,
creating the entry when the caller supplied no override for that id. -/
def setStepOutput : List (String × StepEntry) → String → StepOutput → List (String × StepEntry)
  | [], stepId, out => [(stepId, { output := some out })]
  | (k, e) :: rest, stepId, out =>
      if k = stepId then (k, { e with output := some out }) :: rest
      else (k, e) :: setStepOutput rest stepId out

/-- The accumulated outputs of one workflow run, keyed by execution order. -/
structure WorkflowRunResult where
  searchStepOutput : StepOutput
  processResultsStepOutput : StepOutput
deriving Repr, DecidableEq

/-- Modelled from the spec: the Run Driver of `@mastra/core`
(`workflow.createRun().start`), whose source is not part of this repository.
Per §2 and §4.4 it seeds a fresh context with the trigger data and the
caller-supplied per-step entries, executes the committed steps in order
(`search-step` then `process-results-step`), and records each output under
its step id before the next step resolves its input.  It also forwards the
number of agent calls performed. -/
def startRun (env : Env) (agentGenerate : Except String String)
    (triggerData : Option TriggerData) (initialSteps : List (String × StepEntry)) :
    WorkflowRunResult × Nat :=
  let ctx1 : ExecContext := { triggerData := triggerData, steps := initialSteps }
  let out1 := searchStepExecute ctx1
  let ctx2 : ExecContext :=
    { triggerData := triggerData, steps := setStepOutput initialSteps "search-step" out1 }
  let (out2, agentCalls) := processResultsStepExecute env agentGenerate ctx2
  ({ searchStepOutput := out1, processResultsStepOutput := out2 }, agentCalls)

/-- A JavaScript thrown value as observed by a `catch` handler: either an
`Error` instance with its `message`, or any other thrown value (which may
still carry a `message` property without being an `Error`). -/
inductive Thrown where
  | errorInstance (message : String)
  | nonErrorValue (message : String)
deriving Repr, DecidableEq

/-- The message computed by the catch handler of `runWebSearchAgent`
(line 258): `error instanceof Error ? error.message : 'Failed to run web search agent'`. -/
def caughtErrorMessage : Thrown → String
  | Thrown.errorInstance m => m
  | Thrown.nonErrorValue _ => "Failed to run web search agent"

/-- The value returned by `runWebSearchAgent`. -/
structure RunResult where
  success : Bool
  result : Option WorkflowRunResult := none
  error : Option String := none
deriving Repr, DecidableEq

/-- The final answer carried by a run result, when one is present. -/
def RunResult.finalAnswer (r : RunResult) : Option String :=
  r.result.bind fun wr => wr.processResultsStepOutput.answer

/-- The per-step entries `runWebSearchAgent` passes to `start`
(lines 239-250): an input override carrying the query for both step ids. -/
def runOverrides (query : String) : List (String × StepEntry) :=
  [("search-step", { input := some { query := some query } }),
   ("process-results-step", { input := some { query := some query } })]

/-- The run entry point `runWebSearchAgent` (mastra.ts lines 207-261).
`thrownDuringRun` models an exception escaping the workflow lookup or
execution inside the `try` block (`none` when nothing throws); the catch
converts it with `caughtErrorMessage`.  A falsy `req.query.query` returns
the early validation failure before the `try` block is entered. -/
def runWebSearchAgent (env : Env) (agentGenerate : Except String String)
    (thrownDuringRun : Option Thrown) (reqQuery : Option String) : RunResult :=
  if isFalsy reqQuery then
    { success := false, error := some "No prompt provided" }
  else
    match thrownDuringRun with
    | some e => { success := false, error := some (caughtErrorMessage e) }
    | none =>
      let query := reqQuery.getD ""
      let (result, _) :=
        startRun env agentGenerate (some { query := some query }) (runOverrides query)
      { success := true, result := some result }

/-- The module-level mutable state of mastra.ts (lines 37-38): the two cached
promises, with promise identities drawn from a counter so that distinct
constructions are distinguishable, plus counters of how often
`initializeMastra` and `createWebSearchAgent` were invoked through the
cached getters. -/
structure ModuleState where
  mastraPromise : Option Nat := none
  webSearchAgentPromise : Option Nat := none
  nextPromiseId : Nat := 0
  initializeMastraCalls : Nat := 0
  createWebSearchAgentCalls : Nat := 0
deriving Repr, DecidableEq

/-- The state both cached promises start the process in: `null`. -/
def initialModuleState : ModuleState := {}

/-- `getMastra` (lines 191-196): construct and cache the promise on first
call, return the cached promise afterwards. -/
def getMastra (s : ModuleState) : Nat × ModuleState :=
  match s.mastraPromise with
  | some p => (p, s)
  | none =>
      (s.nextPromiseId,
       { s with
           mastraPromise := some s.nextPromiseId,
           nextPromiseId := s.nextPromiseId + 1,
           initializeMastraCalls := s.initializeMastraCalls + 1 })

/-- `getWebSearchAgent` (lines 199-204): same single-flight caching for the
agent promise. -/
def getWebSearchAgent (s : ModuleState) : Nat × ModuleState :=
  match s.webSearchAgentPromise with
  | some p => (p, s)
  | none =>
      (s.nextPromiseId,
       { s with
           webSearchAgentPromise := some s.nextPromiseId,
           nextPromiseId := s.nextPromiseId + 1,
           createWebSearchAgentCalls := s.createWebSearchAgentCalls + 1 })

/-- The `message` property of a thrown value (an `Error` message, or the
`message` field of a non-`Error` thrown object). -/
def Thrown.message : Thrown → String
  | Thrown.errorInstance m => m
  | Thrown.nonErrorValue m => m

/-- A context in which all three layers the spec names are populated: a
per-step override for both step ids, a recorded `search-step` output, and
trigger data. -/
def mkLayeredContext (override prevOutput trigger : Option String) : ExecContext :=
  { triggerData := some { query := trigger },
    steps :=
      [("search-step",
        { input := some { query := override }, output := some { query := prevOutput } }),
       ("process-results-step",
        { input := some { query := override } })] }

/-- The answer the process-results step produces once a truthy query was
resolved: the canned answer when the credential guard fires, otherwise the
stringified agent text or the catch-branch answer. -/
def agentPolicyAnswer (env : Env) (agentGenerate : Except String String) : String :=
  if agentUnconfigured env then cannedTokyoAnswer
  else
    match agentGenerate with
    | Except.ok text => jsonStringifyString text
    | Except.error msg => errorAnswerIntro ++ msg

/-- A call to one of the two cached getters. -/
inductive GetterCall where
  | mastra
  | agent
deriving Repr, DecidableEq

/-- Dispatch one getter call. -/
def getterStep : GetterCall → ModuleState → Nat × ModuleState
  | GetterCall.mastra, s => getMastra s
  | GetterCall.agent, s => getWebSearchAgent s

/-- Run a sequence of getter calls, collecting each call with the promise it
returned. -/
def runGetters : List GetterCall → ModuleState → List (GetterCall × Nat) × ModuleState
  | [], s => ([], s)
  | c :: cs, s =>
      let (r, s1) := getterStep c s
      let (rs, s2) := runGetters cs s1
      ((c, r) :: rs, s2)

/-- Invariant tying each call counter to its cache: a getter body has run at
most once, and not at all while its cache is still `null`. -/
def counterInv (s : ModuleState) : Prop :=
  (s.initializeMastraCalls ≤ 1 ∧ (s.mastraPromise = none → s.initializeMastraCalls = 0)) ∧
  (s.createWebSearchAgentCalls ≤ 1 ∧
    (s.webSearchAgentPromise = none → s.createWebSearchAgentCalls = 0))

/-! ## Helper lemmas -/

theorem string_data_append (a b : String) : (a ++ b).data = a.data ++ b.data := by
  cases a
  cases b
  rfl

theorem string_append_ne_empty_left (p m : String) (hp : p ≠ "") : p ++ m ≠ "" := by
  intro h
  apply hp
  have hd : p.data ++ m.data = [] := by
    have h2 := congrArg String.data h
    rwa [string_data_append] at h2
  have hp0 : p.data = [] := (List.append_eq_nil.mp hd).1
  cases p
  simp only [] at hp0
  simp [hp0]

theorem jsonStringifyString_ne_empty (s : String) : jsonStringifyString s ≠ "" :=
  string_append_ne_empty_left _ _ (string_append_ne_empty_left _ _ (by decide))

theorem agentPolicyAnswer_ne_empty (env : Env) (agentGenerate : Except String String) :
    agentPolicyAnswer env agentGenerate ≠ "" := by
  unfold agentPolicyAnswer
  cases hU : agentUnconfigured env with
  | true =>
      simp only [if_pos]
      decide
  | false =>
      cases agentGenerate with
      | ok text => simpa using jsonStringifyString_ne_empty text
      | error msg => simpa using string_append_ne_empty_left errorAnswerIntro msg (by decide)

theorem processResultsStepExecute_truthy (env : Env) (agentGenerate : Except String String)
    (context : ExecContext) (h : isFalsy (processResolvedQuery context) = false) :
    processResultsStepExecute env agentGenerate context =
      ({ answer := some (agentPolicyAnswer env agentGenerate) },
       if agentUnconfigured env then 0 else 1) := by
  cases hU : agentUnconfigured env <;> cases agentGenerate <;>
    simp [processResultsStepExecute, agentPolicyAnswer, h, hU]

theorem startRun_truthy (env : Env) (agentGenerate : Except String String)
    (q : String) (hq : q ≠ "") :
    startRun env agentGenerate (some { query := some q }) (runOverrides q) =
      ({ searchStepOutput := { query := some q },
         processResultsStepOutput := { answer := some (agentPolicyAnswer env agentGenerate) } },
       if agentUnconfigured env then 0 else 1) := by
  have hfq : isFalsy (some q) = false := by simp [isFalsy, hq]
  have h1 : searchStepExecute
      { triggerData := some { query := some q }, steps := runOverrides q } =
      { query := some q } := by
    simp [searchStepExecute, searchStepResolvedQuery, ExecContext.triggerQuery, hfq]
  have hres : processResolvedQuery
      { triggerData := some { query := some q },
        steps := setStepOutput (runOverrides q) "search-step" { query := some q } } = some q := by
    simp [processResolvedQuery, ExecContext.stepOutputQuery, ExecContext.triggerQuery,
      setStepOutput, runOverrides, jsOr, hfq, List.lookup]
  have h2 := processResultsStepExecute_truthy env agentGenerate
    { triggerData := some { query := some q },
      steps := setStepOutput (runOverrides q) "search-step" { query := some q } }
    (by rw [hres]; exact hfq)
  simp [startRun, h1, h2]

theorem runWebSearchAgent_truthy (env : Env) (agentGenerate : Except String String)
    (q : String) (hq : q ≠ "") :
    runWebSearchAgent env agentGenerate none (some q) =
      { success := true,
        result := some { searchStepOutput := { query := some q },
                         processResultsStepOutput :=
                           { answer := some (agentPolicyAnswer env agentGenerate) } } } := by
  have hfq : isFalsy (some q) = false := by simp [isFalsy, hq]
  simp [runWebSearchAgent, hfq, startRun_truthy env agentGenerate q hq]

theorem getMastra_cached (s : ModuleState) (p : Nat) (h : s.mastraPromise = some p) :
    getMastra s = (p, s) := by
  unfold getMastra
  rw [h]

theorem getWebSearchAgent_cached (s : ModuleState) (p : Nat)
    (h : s.webSearchAgentPromise = some p) :
    getWebSearchAgent s = (p, s) := by
  unfold getWebSearchAgent
  rw [h]

theorem getterStep_mastra_stable (c : GetterCall) (s : ModuleState) (p : Nat)
    (h : s.mastraPromise = some p) :
    ((getterStep c s).2.mastraPromise = some p) ∧
    (c = GetterCall.mastra → (getterStep c s).1 = p) := by
  cases c with
  | mastra => simp [getterStep, getMastra_cached s p h, h]
  | agent =>
      unfold getterStep getWebSearchAgent
      cases hA : s.webSearchAgentPromise <;> simp [h, hA]

theorem getterStep_agent_stable (c : GetterCall) (s : ModuleState) (p : Nat)
    (h : s.webSearchAgentPromise = some p) :
    ((getterStep c s).2.webSearchAgentPromise = some p) ∧
    (c = GetterCall.agent → (getterStep c s).1 = p) := by
  cases c with
  | agent => simp [getterStep, getWebSearchAgent_cached s p h, h]
  | mastra =>
      unfold getterStep getMastra
      cases hA : s.mastraPromise <;> simp [h, hA]

theorem runGetters_mastra_stable (cs : List GetterCall) (s : ModuleState) (p : Nat)
    (h : s.mastraPromise = some p) :
    (runGetters cs s).2.mastraPromise = some p ∧
    ∀ r ∈ (runGetters cs s).1, r.1 = GetterCall.mastra → r.2 = p := by
  induction cs generalizing s with
  | nil => simpa [runGetters] using h
  | cons c cs ih =>
      have hstep := getterStep_mastra_stable c s p h
      have hrec := ih (getterStep c s).2 hstep.1
      refine ⟨by simpa [runGetters] using hrec.1, ?_⟩
      intro r hr hm
      simp only [runGetters, List.mem_cons] at hr
      rcases hr with rfl | hr
      · exact hstep.2 hm
      · exact hrec.2 r hr hm

theorem runGetters_agent_stable (cs : List GetterCall) (s : ModuleState) (p : Nat)
    (h : s.webSearchAgentPromise = some p) :
    (runGetters cs s).2.webSearchAgentPromise = some p ∧
    ∀ r ∈ (runGetters cs s).1, r.1 = GetterCall.agent → r.2 = p := by
  induction cs generalizing s with
  | nil => simpa [runGetters] using h
  | cons c cs ih =>
      have hstep := getterStep_agent_stable c s p h
      have hrec := ih (getterStep c s).2 hstep.1
      refine ⟨by simpa [runGetters] using hrec.1, ?_⟩
      intro r hr hm
      simp only [runGetters, List.mem_cons] at hr
      rcases hr with rfl | hr
      · exact hstep.2 hm
      · exact hrec.2 r hr hm

theorem getterStep_counterInv (c : GetterCall) (s : ModuleState) (h : counterInv s) :
    counterInv (getterStep c s).2 := by
  obtain ⟨⟨hm1, hm0⟩, ⟨ha1, ha0⟩⟩ := h
  cases c with
  | mastra =>
      cases hM : s.mastraPromise with
      | some p =>
          have hstep : getterStep GetterCall.mastra s = (p, s) := by
            simp [getterStep, getMastra, hM]
          rw [hstep]
          exact ⟨⟨hm1, hm0⟩, ⟨ha1, ha0⟩⟩
      | none =>
          simp [counterInv, getterStep, getMastra, hM, hm0 hM]
          exact ⟨ha1, ha0⟩
  | agent =>
      cases hA : s.webSearchAgentPromise with
      | some p =>
          have hstep : getterStep GetterCall.agent s = (p, s) := by
            simp [getterStep, getWebSearchAgent, hA]
          rw [hstep]
          exact ⟨⟨hm1, hm0⟩, ⟨ha1, ha0⟩⟩
      | none =>
          simp [counterInv, getterStep, getWebSearchAgent, hA, ha0 hA]
          exact ⟨hm1, hm0⟩

theorem runGetters_counterInv (cs : List GetterCall) (s : ModuleState) (h : counterInv s) :
    counterInv (runGetters cs s).2 := by
  induction cs generalizing s with
  | nil => simpa [runGetters] using h
  | cons c cs ih =>
      have hstep := getterStep_counterInv c s h
      simpa [runGetters] using ih (getterStep c s).2 hstep

theorem initialModuleState_counterInv : counterInv initialModuleState := by
  refine ⟨⟨?_, ?_⟩, ⟨?_, ?_⟩⟩ <;> simp [initialModuleState, counterInv]

theorem string_append_empty (s : String) : s ++ "" = s := by
  cases s with
  | mk data =>
      show String.mk (data ++ []) = String.mk data
      rw [List.append_nil]

/-! ## Claims -/

/-- C1: for every trigger data whose `query` field is a non-empty string,
running the workflow via `runWebSearchAgent` returns `success = true` and a
non-empty `answer` string, in every branch: `env` ranges over configured and
unconfigured credentials and `agentGenerate` over successful and failing
agent calls. -/
theorem claim1_nonempty_query_succeeds (env : Env) (agentGenerate : Except String String)
    (q : String) (hq : q ≠ "") :
    (runWebSearchAgent env agentGenerate none (some q)).success = true ∧
    ∃ a : String,
      (runWebSearchAgent env agentGenerate none (some q)).finalAnswer = some a ∧ a ≠ "" := by
  rw [runWebSearchAgent_truthy env agentGenerate q hq]
  exact ⟨rfl, agentPolicyAnswer env agentGenerate, rfl,
    agentPolicyAnswer_ne_empty env agentGenerate⟩

/-- C1 witness: the property evaluated at a concrete non-empty query. -/
theorem claim1_witness :
    (runWebSearchAgent { anthropicApiKey := some "dummy-key" } (Except.ok "Tokyo") none
        (some "What is the capital of Japan?")).success = true ∧
    ∃ a : String,
      (runWebSearchAgent { anthropicApiKey := some "dummy-key" } (Except.ok "Tokyo") none
          (some "What is the capital of Japan?")).finalAnswer = some a ∧ a ≠ "" :=
  claim1_nonempty_query_succeeds _ _ _ (by decide)

/-- C2 counterexample: at trigger query `""` and at an absent query, the run
entry point returns `success = false`, refuting the claim that the result
still has `success = true` with a degraded answer. -/
theorem claim2_counterexample :
    (runWebSearchAgent { anthropicApiKey := none } (Except.ok "Tokyo") none
        (some "")).success = false ∧
    (runWebSearchAgent { anthropicApiKey := none } (Except.ok "Tokyo") none
        none).success = false :=
  ⟨rfl, rfl⟩

/-- C2 amended: for an empty or absent query, `runWebSearchAgent` aborts
before running the workflow, returning `success = false` with the fixed
validation error `"No prompt provided"`; it is a total function, so no
exception reaches the caller. -/
theorem claim2_falsy_query_aborts (env : Env) (agentGenerate : Except String String)
    (thrownDuringRun : Option Thrown) (reqQuery : Option String)
    (h : isFalsy reqQuery = true) :
    runWebSearchAgent env agentGenerate thrownDuringRun reqQuery =
      { success := false, result := none, error := some "No prompt provided" } := by
  simp [runWebSearchAgent, h]

/-- C2 witness: the amended property evaluated at the empty query. -/
theorem claim2_witness :
    runWebSearchAgent { anthropicApiKey := none } (Except.ok "Tokyo") none (some "") =
      { success := false, result := none, error := some "No prompt provided" } :=
  claim2_falsy_query_aborts _ _ _ _ (by decide)

/-- C3 counterexample: with all three layers defining `query` differently
(override `"o"`, prior step output `"p"`, trigger `"t"`), the
process-results step resolves `"p"`, not the override value `"o"`. -/
theorem claim3_counterexample :
    (mkLayeredContext (some "o") (some "p") (some "t")).stepOverrideQuery
        "process-results-step" = some "o" ∧
    (mkLayeredContext (some "o") (some "p") (some "t")).stepOutputQuery
        "search-step" = some "p" ∧
    (mkLayeredContext (some "o") (some "p") (some "t")).triggerQuery = some "t" ∧
    processResolvedQuery (mkLayeredContext (some "o") (some "p") (some "t")) ≠ some "o" := by
  refine ⟨rfl, rfl, rfl, ?_⟩
  decide

/-- C3 amended: per-step overrides are never consulted.  The search step
resolves its query from the trigger data alone, even when an override and a
recorded output are present; the process-results step resolves the preceding
step output when it defines a non-empty query, and the trigger value once
the prior output layer is removed, with or without an override. -/
theorem claim3_resolution_precedence (ov p t : String) (hp : p ≠ "") :
    searchStepResolvedQuery (mkLayeredContext (some ov) (some p) (some t)) = some t ∧
    processResolvedQuery (mkLayeredContext (some ov) (some p) (some t)) = some p ∧
    processResolvedQuery (mkLayeredContext (some ov) none (some t)) = some t ∧
    processResolvedQuery (mkLayeredContext none none (some t)) = some t := by
  refine ⟨rfl, ?_, rfl, rfl⟩
  simp [processResolvedQuery, ExecContext.stepOutputQuery, ExecContext.triggerQuery,
    mkLayeredContext, jsOr, isFalsy, hp, List.lookup]

/-- C3 witness: the amended property evaluated at three distinct values. -/
theorem claim3_witness :
    searchStepResolvedQuery (mkLayeredContext (some "o") (some "p") (some "t")) = some "t" ∧
    processResolvedQuery (mkLayeredContext (some "o") (some "p") (some "t")) = some "p" ∧
    processResolvedQuery (mkLayeredContext (some "o") none (some "t")) = some "t" ∧
    processResolvedQuery (mkLayeredContext none none (some "t")) = some "t" :=
  claim3_resolution_precedence "o" "p" "t" (by decide)

/-- C4 counterexample: at trigger `{query := ""}` the first step outputs the
placeholder query as claimed, but the final answer is not the fixed
missing-input default: with an unconfigured credential it is the canned
Tokyo answer, because the placeholder query masks the missing input. -/
theorem claim4_counterexample :
    (startRun { anthropicApiKey := none } (Except.ok "Tokyo")
        (some { query := some "" }) []).1.searchStepOutput.query
      = some "No query provided, using default search" ∧
    (startRun { anthropicApiKey := none } (Except.ok "Tokyo")
        (some { query := some "" }) []).1.processResultsStepOutput.answer
      ≠ some missingQueryAnswer := by
  refine ⟨rfl, ?_⟩
  decide

/-- C4 amended: at trigger `{query := ""}` the first step outputs
`{query := "No query provided, using default search"}`; the process-results
step then resolves that placeholder as its query, so the final answer is the
agent-invocation policy answer for a truthy query (canned, stringified agent
text, or error explanation), never the missing-input default. -/
theorem claim4_empty_trigger_behavior (env : Env) (agentGenerate : Except String String) :
    (startRun env agentGenerate (some { query := some "" }) []).1.searchStepOutput =
      { query := some "No query provided, using default search" } ∧
    (startRun env agentGenerate (some { query := some "" }) []).1.processResultsStepOutput =
      { answer := some (agentPolicyAnswer env agentGenerate) } := by
  constructor
  · rfl
  · show (processResultsStepExecute env agentGenerate
        { triggerData := some { query := some "" },
          steps := setStepOutput [] "search-step"
            (searchStepExecute { triggerData := some { query := some "" }, steps := [] }) }).1
      = { answer := some (agentPolicyAnswer env agentGenerate) }
    rw [processResultsStepExecute_truthy env agentGenerate _ (by decide)]

/-- C5: when the credential is absent or equals the placeholder
`"dummy-key"`, the process-results step performs zero agent calls in every
context; whenever it has resolved a truthy query it returns the canned
Tokyo answer; and for the trigger query "What is the capital of Japan?"
the whole run returns success with exactly that canned answer. -/
theorem claim5_unconfigured_skips_agent (env : Env) (agentGenerate : Except String String)
    (context : ExecContext) (hU : agentUnconfigured env = true) :
    (processResultsStepExecute env agentGenerate context).2 = 0 ∧
    (isFalsy (processResolvedQuery context) = false →
      (processResultsStepExecute env agentGenerate context).1 =
        { answer := some cannedTokyoAnswer }) ∧
    runWebSearchAgent env agentGenerate none (some "What is the capital of Japan?") =
      { success := true,
        result := some
          { searchStepOutput := { query := some "What is the capital of Japan?" },
            processResultsStepOutput := { answer := some cannedTokyoAnswer } } } := by
  refine ⟨?_, ?_, ?_⟩
  · by_cases h : isFalsy (processResolvedQuery context) = true
    · simp [processResultsStepExecute, h]
    · rw [processResultsStepExecute_truthy env agentGenerate context
        (Bool.not_eq_true _ |>.mp h)]
      simp [hU]
  · intro h
    rw [processResultsStepExecute_truthy env agentGenerate context h]
    simp [agentPolicyAnswer, hU]
  · rw [runWebSearchAgent_truthy env agentGenerate _ (by decide)]
    simp [agentPolicyAnswer, hU]

/-- C5 witness: the property evaluated at the placeholder credential, a
successful agent stub, and a context with a truthy trigger query. -/
theorem claim5_witness :
    (processResultsStepExecute { anthropicApiKey := some "dummy-key" } (Except.ok "Tokyo")
        { triggerData := some { query := some "hi" } }).2 = 0 ∧
    (isFalsy (processResolvedQuery { triggerData := some { query := some "hi" } }) = false →
      (processResultsStepExecute { anthropicApiKey := some "dummy-key" } (Except.ok "Tokyo")
          { triggerData := some { query := some "hi" } }).1 =
        { answer := some cannedTokyoAnswer }) ∧
    runWebSearchAgent { anthropicApiKey := some "dummy-key" } (Except.ok "Tokyo") none
        (some "What is the capital of Japan?") =
      { success := true,
        result := some
          { searchStepOutput := { query := some "What is the capital of Japan?" },
            processResultsStepOutput := { answer := some cannedTokyoAnswer } } } :=
  claim5_unconfigured_skips_agent _ _ _ (by decide)

/-- C6: every error raised by the agent call is caught inside the
process-results step, which returns an answer consisting of the fixed
explanation text followed by the error message (so the answer contains the
message); the step itself is a total function, so nothing propagates, and
the run still reports `success = true` with that answer. -/
theorem claim6_agent_error_caught (env : Env) (context : ExecContext) (msg q : String)
    (hU : agentUnconfigured env = false)
    (hR : isFalsy (processResolvedQuery context) = false) (hq : q ≠ "") :
    (processResultsStepExecute env (Except.error msg) context).1 =
      { answer := some (errorAnswerIntro ++ msg) } ∧
    (∃ a b : String, errorAnswerIntro ++ msg = a ++ msg ++ b) ∧
    (runWebSearchAgent env (Except.error msg) none (some q)).success = true ∧
    (runWebSearchAgent env (Except.error msg) none (some q)).finalAnswer =
      some (errorAnswerIntro ++ msg) := by
  refine ⟨?_, ⟨errorAnswerIntro, "", ?_⟩, ?_, ?_⟩
  · rw [processResultsStepExecute_truthy env (Except.error msg) context hR]
    simp [agentPolicyAnswer, hU]
  · rw [string_append_empty]
  · rw [runWebSearchAgent_truthy env (Except.error msg) q hq]
  · rw [runWebSearchAgent_truthy env (Except.error msg) q hq]
    simp [RunResult.finalAnswer, agentPolicyAnswer, hU]

/-- C6 witness: the property evaluated at a configured credential, the
error message "NetworkTimeout", and a context with a truthy trigger query. -/
theorem claim6_witness :
    (processResultsStepExecute { anthropicApiKey := some "sk-real" }
        (Except.error "NetworkTimeout") { triggerData := some { query := some "hi" } }).1 =
      { answer := some (errorAnswerIntro ++ "NetworkTimeout") } ∧
    (∃ a b : String, errorAnswerIntro ++ "NetworkTimeout" = a ++ "NetworkTimeout" ++ b) ∧
    (runWebSearchAgent { anthropicApiKey := some "sk-real" } (Except.error "NetworkTimeout")
        none (some "hi")).success = true ∧
    (runWebSearchAgent { anthropicApiKey := some "sk-real" } (Except.error "NetworkTimeout")
        none (some "hi")).finalAnswer = some (errorAnswerIntro ++ "NetworkTimeout") :=
  claim6_agent_error_caught _ _ _ _ (by decide) (by decide) (by decide)

/-- C7 counterexample: a thrown non-Error value whose `message` property is
"boom" is converted to the fixed fallback text, not to the value of the
exception `message`. -/
theorem claim7_counterexample :
    (runWebSearchAgent { anthropicApiKey := none } (Except.ok "Tokyo")
        (some (Thrown.nonErrorValue "boom")) (some "q")).error
      = some "Failed to run web search agent" ∧
    (Thrown.nonErrorValue "boom").message = "boom" ∧
    (runWebSearchAgent { anthropicApiKey := none } (Except.ok "Tokyo")
        (some (Thrown.nonErrorValue "boom")) (some "q")).error ≠ some "boom" := by
  refine ⟨rfl, rfl, ?_⟩
  decide

/-- C7 amended: every exception escaping workflow lookup or execution is
caught and converted to `success = false`, with `error` equal to the
exception message when the thrown value is an `Error` instance and to the
fixed text "Failed to run web search agent" otherwise; the entry point is a
total function, so it never throws. -/
theorem claim7_catch_behavior (env : Env) (agentGenerate : Except String String)
    (t : Thrown) (reqQuery : Option String) (h : isFalsy reqQuery = false) :
    runWebSearchAgent env agentGenerate (some t) reqQuery =
      { success := false, result := none,
        error := some (match t with
          | Thrown.errorInstance m => m
          | Thrown.nonErrorValue _ => "Failed to run web search agent") } := by
  cases t <;> simp [runWebSearchAgent, h, caughtErrorMessage]

/-- C7 witness: the amended property evaluated at an `Error` instance. -/
theorem claim7_witness :
    runWebSearchAgent { anthropicApiKey := none } (Except.ok "Tokyo")
        (some (Thrown.errorInstance "NetworkTimeout")) (some "q") =
      { success := false, result := none, error := some "NetworkTimeout" } :=
  claim7_catch_behavior _ _ _ _ (by decide)

/-- C8 counterexample: when the recorded search-step output defines
`query = ""` and the trigger defines `"trigger"`, the process-results step
resolves the trigger value: the empty prior-step layer is not treated as
present. -/
theorem claim8_counterexample :
    (mkLayeredContext none (some "") (some "trigger")).stepOutputQuery "search-step"
      = some "" ∧
    processResolvedQuery (mkLayeredContext none (some "") (some "trigger")) = some "trigger" ∧
    processResolvedQuery (mkLayeredContext none (some "") (some "trigger")) ≠ some "" := by
  refine ⟨rfl, rfl, ?_⟩
  decide

/-- C8 amended: an empty prior-step query is treated as absent by the
JavaScript or-fallback of the process-results step: resolution falls through
to the trigger query, whatever that is. -/
theorem claim8_empty_prior_falls_through (override trigger : Option String) :
    processResolvedQuery (mkLayeredContext override (some "") trigger) = trigger := rfl

/-- C9: lazy initialization is single-flight: from the initial state any
sequence of getter calls invokes each initializer at most once, and once a
cached promise is non-null it never changes, each getter returning that
identical promise on every subsequent call while leaving the state intact. -/
theorem claim9_single_flight (cs : List GetterCall) :
    ((runGetters cs initialModuleState).2.initializeMastraCalls ≤ 1 ∧
     (runGetters cs initialModuleState).2.createWebSearchAgentCalls ≤ 1) ∧
    (∀ (s : ModuleState) (p : Nat), s.mastraPromise = some p →
       getMastra s = (p, s) ∧
       (runGetters cs s).2.mastraPromise = some p ∧
       ∀ r ∈ (runGetters cs s).1, r.1 = GetterCall.mastra → r.2 = p) ∧
    (∀ (s : ModuleState) (p : Nat), s.webSearchAgentPromise = some p →
       getWebSearchAgent s = (p, s) ∧
       (runGetters cs s).2.webSearchAgentPromise = some p ∧
       ∀ r ∈ (runGetters cs s).1, r.1 = GetterCall.agent → r.2 = p) := by
  refine ⟨?_, ?_, ?_⟩
  · have h := runGetters_counterInv cs initialModuleState initialModuleState_counterInv
    exact ⟨h.1.1, h.2.1⟩
  · intro s p h
    exact ⟨getMastra_cached s p h, (runGetters_mastra_stable cs s p h).1,
      (runGetters_mastra_stable cs s p h).2⟩
  · intro s p h
    exact ⟨getWebSearchAgent_cached s p h, (runGetters_agent_stable cs s p h).1,
      (runGetters_agent_stable cs s p h).2⟩

/-- C9 witness: the property evaluated on a concrete call sequence and on a
concrete state whose mastra promise is already cached. -/
theorem claim9_witness :
    (runGetters [GetterCall.mastra, GetterCall.agent, GetterCall.mastra]
        initialModuleState).2.initializeMastraCalls ≤ 1 ∧
    getMastra { mastraPromise := some 7 } = (7, { mastraPromise := some 7 }) := by
  constructor
  · exact (claim9_single_flight _).1.1
  · exact ((claim9_single_flight []).2.1 { mastraPromise := some 7 } 7 rfl).1

/-- C10: the search step output depends only on the trigger query: any two
execution contexts with equal `triggerData.query` produce equal outputs,
whatever per-step overrides or recorded step outputs they hold. -/
theorem claim10_search_noninterference (c1 c2 : ExecContext)
    (h : c1.triggerQuery = c2.triggerQuery) :
    searchStepExecute c1 = searchStepExecute c2 := by
  unfold searchStepExecute searchStepResolvedQuery
  rw [h]

/-- C10 witness: two contexts agreeing only on the trigger query — one full
of overrides and recorded outputs, one bare — produce the same output. -/
theorem claim10_witness :
    searchStepExecute (mkLayeredContext (some "o1") (some "p1") (some "q")) =
      searchStepExecute { triggerData := some { query := some "q" } } :=
  claim10_search_noninterference _ _ rfl
